import Mathlib

/-!
Verification development for the PHYS10111 REBOUND notebooks.

The repository consists of two Jupyter notebooks (`rebound_HR8799.ipynb` and an
unnamed variant) that drive the external REBOUND N-body library to simulate the
HR 8799 planetary system.  The notebooks are transliterated here as lists of
cells, each cell a list of statements of a small statement language; an
interpreter gives the statements their semantics over an explicit
simulation-state / filesystem / output-log state.  The external integrator's
physics is not reimplemented: the interpreter is parameterised by an arbitrary
evolution function `Evol`, so every theorem proved below holds for any possible
behaviour of the external integrator on the particle data.  The library-contract
parts that the notebooks rely on (a call `sim.integrate(T)` advances the clock
to `T`; a fresh `rebound.Simulation()` starts with the default gravitational
constant `G = 1`; `sim.save`/`rebound.Simulation(file)` write and read a
checkpoint file; `calculate_orbits` on a freshly added body reads back the
elements it was added with) are modelled directly, as documented on each
definition.
-/

noncomputable section

/-- Degrees-to-radians conversion factor, `dtor = np.pi / 180` in the notebooks. -/
def dtor : ℝ := Real.pi / 180

/-- Shared planet inclination, `inc_pl = 27.8 * dtor` in the notebooks. -/
def inc_pl : ℝ := 27.8 * dtor

/-- Shared ascending-node longitude, `Omega_pl = 60.1 * dtor` in the notebooks. -/
def Omega_pl : ℝ := 60.1 * dtor

/-- The six Keplerian orbital elements, as passed to and read back from the
external library (angles in radians, as the notebooks pass them). -/
structure OrbElems where
  a : ℝ
  e : ℝ
  omega : ℝ
  M : ℝ
  inc : ℝ
  Omega : ℝ

/-- One `sim.add(...)` call as written in a notebook: the mass is always given,
each of the six orbital-element keyword arguments is given (`some`) or
omitted (`none`). -/
structure AddCall where
  m : ℝ
  a : Option ℝ
  e : Option ℝ
  omega : Option ℝ
  M : Option ℝ
  inc : Option ℝ
  Omega : Option ℝ

/-- A body inside the simulation: its mass and, when it was created from
orbital elements, the elements it was added with (`none` for the central star,
which is added with only a mass). -/
structure Body where
  m : ℝ
  elems : Option OrbElems

/-- The simulation-state object owned by the external library, restricted to
the fields the notebooks set or read: the ordered particle list, current time
`t`, time step `dt`, gravitational constant `G`, and whether `sim.units` has
been assigned. -/
structure SimState where
  particles : List Body
  t : ℝ
  dt : ℝ
  G : ℝ
  unitsSet : Bool

/-- Modelled library contract: a fresh `rebound.Simulation()` starts empty at
time 0 with the library defaults, in particular the default gravitational
constant `G = 1` (REBOUND's default unit system) and the default step
`dt = 0.001`; no units have been assigned. -/
def freshSim : SimState :=
  { particles := [], t := 0, dt := 0.001, G := 1, unitsSet := false }

/-- Modelled library contract for `sim.add`: the call records the given mass,
and when all six orbital elements are supplied the body keeps them; a call
that supplies no element (the central star) yields a body without elements.
The notebooks only ever make calls of these two shapes.  No argument is
validated or altered on the way in. -/
def bodyOfCall (c : AddCall) : Body :=
  { m := c.m
    elems :=
      match c.a, c.e, c.omega, c.M, c.inc, c.Omega with
      | some a, some e, some om, some bigM, some i, some bigOm =>
          some { a := a, e := e, omega := om, M := bigM, inc := i, Omega := bigOm }
      | _, _, _, _, _, _ => none }

/-- Modelled library contract for `sim.calculate_orbits()` on bodies that were
added from orbital elements and not yet integrated: it returns the stored
elements of each non-primary particle (REBOUND uses the same Jacobi convention
in `add` and in `calculate_orbits`, so the round trip is exact in exact
arithmetic).  The notebooks' print loop formats each orbit as the row
`[a, e, omega/dtor, inc/dtor, Omega/dtor]`, converting angles back to
degrees by dividing by `dtor`. -/
def orbitsTable (ps : List Body) : List (List ℝ) :=
  ps.tail.filterMap fun b =>
    b.elems.map fun o => [o.a, o.e, o.omega / dtor, o.inc / dtor, o.Omega / dtor]

/-- Abstract evolution function standing for the external integrator's physics:
given the particle list, the current time and the target time, it returns the
evolved particle list.  Nothing about it is assumed; theorems below are proved
for every `evol`. -/
def Evol : Type := List Body → ℝ → ℝ → List Body

/-- Modelled library contract for `sim.integrate(T)`: the particle data is
evolved by the external integrator (abstract `evol`) and the simulation clock
is advanced to exactly the target time `T` (REBOUND's default
`exact_finish_time=1`); `dt`, `G` and the unit flag are untouched. -/
def integrateSim (evol : Evol) (s : SimState) (target : ℝ) : SimState :=
  { s with particles := evol s.particles s.t target, t := target }

/-- A file operation performed by a notebook, for the filesystem-as-state
model: writing or reading a named file. -/
inductive FileOp where
  | write (name : String)
  | read (name : String)
deriving DecidableEq

/-- Simple (non-compound) statements of the notebook cells.  Every constructor
except `assignVar`, `breakStmt` and the bookkeeping no-ops is an external
library call; the notebooks define no functions and compute nothing numeric
themselves. -/
inductive SStmt where
  | pipInstall
  | importLibs
  | assignVar
  | newSim
  | loadSim (file : String)
  | delSim
  | setUnits
  | setG (g : ℝ)
  | setDt (v : ℝ)
  | addBody (c : AddCall)
  | saveSim (file : String)
  | moveToCom
  | integrateTo (target : ℝ)
  | captureFramestep
  | captureFramestepMul (k : ℝ)
  | integrateStep
  | orbitPlot
  | plotOp
  | printText
  | printOrbits
  | printPeriods
  | printPositions
  | statusCall
  | breakStmt

/-- Statements of a notebook cell: a simple statement, a `for i in range(n)`
loop with a flat body, a `try/except` block, or a function definition.  The
last two never occur in the notebooks; they are present in the language so
that their absence is a statement about the code, not about the model. -/
inductive Stmt where
  | simple (s : SStmt)
  | forRange (n : ℕ) (body : List SStmt)
  | tryExcept (body handler : List SStmt)
  | defFun (body : List SStmt)

/-- A notebook cell is a list of statements; a notebook is a list of cells. -/
abbrev Cell : Type := List Stmt

/-- Errors a notebook run can raise: loading a checkpoint file that does not
exist, or calling a method on a deleted simulation object. -/
inductive RunErr where
  | missingFile (name : String)
  | noSim
deriving DecidableEq

/-- Interpreter state for a notebook run: the current simulation object (or
`none` after `del sim`), the captured `framestep` variable, the filesystem
(named checkpoint contents, most recent first), the log of file operations,
the tables printed by the orbital-element print loops, and a count of
`integrate` calls performed. -/
structure NBState where
  sim : Option SimState
  framestep : ℝ
  files : List (String × SimState)
  fsLog : List FileOp
  tables : List (List (List ℝ))
  nInteg : ℕ

/-- Initial interpreter state: no simulation yet, empty filesystem, no output. -/
def initNB : NBState :=
  { sim := none, framestep := 0, files := [], fsLog := [], tables := [], nInteg := 0 }

/-- Look up a saved checkpoint by name (most recent save wins). -/
def lookupFile : List (String × SimState) → String → Option SimState
  | [], _ => none
  | (n, s) :: rest, f => if n = f then some s else lookupFile rest f

/-- Run an operation that needs the simulation object present, failing with
`RunErr.noSim` when it has been deleted. -/
def onSim (st : NBState) (f : SimState → NBState) : Except RunErr (NBState × Bool) :=
  match st.sim with
  | none => .error .noSim
  | some s => .ok (f s, false)

/-- Semantics of one simple statement: the new state together with a flag that
is `true` exactly when the statement was a `break`. -/
def runS (evol : Evol) (st : NBState) : SStmt → Except RunErr (NBState × Bool)
  | .pipInstall => .ok (st, false)
  | .importLibs => .ok (st, false)
  | .assignVar => .ok (st, false)
  | .newSim => .ok ({ st with sim := some freshSim }, false)
  | .loadSim f =>
      match lookupFile st.files f with
      | none => .error (.missingFile f)
      | some s => .ok ({ st with sim := some s, fsLog := st.fsLog ++ [.read f] }, false)
  | .delSim => .ok ({ st with sim := none }, false)
  | .setUnits => onSim st fun s => { st with sim := some { s with unitsSet := true } }
  | .setG g => onSim st fun s => { st with sim := some { s with G := g } }
  | .setDt v => onSim st fun s => { st with sim := some { s with dt := v } }
  | .addBody c => onSim st fun s =>
      { st with sim := some { s with particles := s.particles ++ [bodyOfCall c] } }
  | .saveSim f => onSim st fun s =>
      { st with files := (f, s) :: st.files, fsLog := st.fsLog ++ [.write f] }
  | .moveToCom => onSim st fun _ => st
  | .integrateTo target => onSim st fun s =>
      { st with sim := some (integrateSim evol s target), nInteg := st.nInteg + 1 }
  | .captureFramestep => onSim st fun s => { st with framestep := s.dt }
  | .captureFramestepMul k => onSim st fun s => { st with framestep := k * s.dt }
  | .integrateStep => onSim st fun s =>
      { st with sim := some (integrateSim evol s (s.t + st.framestep))
                nInteg := st.nInteg + 1 }
  | .orbitPlot => onSim st fun _ => st
  | .plotOp => .ok (st, false)
  | .printText => .ok (st, false)
  | .printOrbits => onSim st fun s =>
      { st with tables := st.tables ++ [orbitsTable s.particles] }
  | .printPeriods => onSim st fun _ => st
  | .printPositions => onSim st fun _ => st
  | .statusCall => onSim st fun _ => st
  | .breakStmt => .ok (st, true)

/-- Run a flat sequence of simple statements, stopping early at a `break`. -/
def runSeq (evol : Evol) : List SStmt → NBState → Except RunErr (NBState × Bool)
  | [], st => .ok (st, false)
  | s :: rest, st =>
      match runS evol st s with
      | .error e => .error e
      | .ok (st', true) => .ok (st', true)
      | .ok (st', false) => runSeq evol rest st'

/-- Run a loop body `n` times, stopping early if an iteration breaks. -/
def iterateLoop (evol : Evol) : ℕ → List SStmt → NBState → Except RunErr NBState
  | 0, _, st => .ok st
  | n + 1, body, st =>
      match runSeq evol body st with
      | .error e => .error e
      | .ok (st', true) => .ok st'
      | .ok (st', false) => iterateLoop evol n body st'

/-- Semantics of one cell-level statement. -/
def runStmt (evol : Evol) (st : NBState) : Stmt → Except RunErr NBState
  | .simple s => (runS evol st s).map Prod.fst
  | .forRange n body => iterateLoop evol n body st
  | .tryExcept body handler =>
      match runSeq evol body st with
      | .ok (st', _) => .ok st'
      | .error _ => (runSeq evol handler st).map Prod.fst
  | .defFun _ => .ok st

/-- Run the statements of one cell in order. -/
def runCell (evol : Evol) : Cell → NBState → Except RunErr NBState
  | [], st => .ok st
  | s :: rest, st =>
      match runStmt evol st s with
      | .error e => .error e
      | .ok st' => runCell evol rest st'

/-- Run a list of cells in order (the in-order, single-pass execution of a
notebook). -/
def runCells (evol : Evol) : List Cell → NBState → Except RunErr NBState
  | [], st => .ok st
  | c :: rest, st =>
      match runCell evol c st with
      | .error e => .error e
      | .ok st' => runCells evol rest st'

/-! ### The add calls written in the notebooks

Both notebooks add the central star with only a mass, and each planet with a
mass and all six orbital elements; angles are written in degrees times `dtor`,
the inclination and node are the shared `inc_pl` and `Omega_pl`. -/

/-- Source `sim.add(m=1.50)`: the central star HR 8799 A, mass only. -/
def starCall : AddCall :=
  { m := 1.50, a := none, e := none, omega := none, M := none, inc := none, Omega := none }

/-- Source `sim.add(m=·, a=16.64, e=0.1397, omega=118.8*dtor, M=1.261,
inc=inc_pl, Omega=Omega_pl)`: planet HR 8799 e with the given mass. -/
def planet_e (m : ℝ) : AddCall :=
  { m := m, a := some 16.64, e := some 0.1397, omega := some (118.8 * dtor)
    M := some 1.261, inc := some inc_pl, Omega := some Omega_pl }

/-- Source `sim.add(m=·, a=26.29, e=0.1112, omega=24.3*dtor, M=2.032,
inc=inc_pl, Omega=Omega_pl)`: planet HR 8799 d with the given mass. -/
def planet_d (m : ℝ) : AddCall :=
  { m := m, a := some 26.29, e := some 0.1112, omega := some (24.3 * dtor)
    M := some 2.032, inc := some inc_pl, Omega := some Omega_pl }

/-- Source `sim.add(m=·, a=43.12, e=0.0561, omega=28.5*dtor, M=4.232,
inc=inc_pl, Omega=Omega_pl)`: planet HR 8799 c with the given mass. -/
def planet_c (m : ℝ) : AddCall :=
  { m := m, a := some 43.12, e := some 0.0561, omega := some (28.5 * dtor)
    M := some 4.232, inc := some inc_pl, Omega := some Omega_pl }

/-- Source `sim.add(m=·, a=70.50, e=0.0113, omega=213.6*dtor, M=2.642,
inc=inc_pl, Omega=Omega_pl)`: planet HR 8799 b with the given mass. -/
def planet_b (m : ℝ) : AddCall :=
  { m := m, a := some 70.50, e := some 0.0113, omega := some (213.6 * dtor)
    M := some 2.642, inc := some inc_pl, Omega := some Omega_pl }

/-! ### Cells shared between the two notebooks

Cell-by-cell transliteration.  Pure-Python variable assignments (`dtor = ...`,
`mass_e = ...`, `nframe = ...`, `fig = op.fig`) are the no-op `assignVar`;
the values they bind appear inline where they are used, with the values they
hold under in-order execution. -/

/-- Setup cell: `sim = rebound.Simulation(); sim.units = ('AU','yr','Msun');
sim.G = 39.476926408897626`. -/
def setupCell : Cell :=
  [.simple .newSim, .simple .setUnits, .simple (.setG 39.476926408897626)]

/-- First add cell: star plus planets e and d (`mass_e = 5e-3`,
`mass_d = mass_e`), then the orbital-element print loop. -/
def addEDCell : Cell :=
  [.simple (.addBody starCall),
   .simple .assignVar, .simple .assignVar, .simple .assignVar,
   .simple .assignVar, .simple .assignVar,
   .simple (.addBody (planet_e 0.005)),
   .simple (.addBody (planet_d 0.005)),
   .simple .printText, .simple .printText, .simple .printOrbits]

/-- Period-printing cell ending with `sim.dt = 1.0`. -/
def periodsDtCell : Cell :=
  [.simple .printText, .simple .printPeriods, .simple (.setDt 1.0)]

/-- Center-of-mass cell: `sim.move_to_com()` and the position print loop. -/
def comPositionsCell : Cell :=
  [.simple .moveToCom, .simple .printText, .simple .printPositions]

/-- Plot-and-save cell: `op = rebound.OrbitPlot(sim, ...)` then
`sim.save("start.bin")`. -/
def plotSaveCell : Cell :=
  [.simple .orbitPlot, .simple (.saveSim "start.bin")]

/-- Status cell after the first animation: `sim.status(...)`,
`sim.move_to_com()` and the orbital-element print loop. -/
def statusComPrintCell : Cell :=
  [.simple .statusCall, .simple .moveToCom,
   .simple .printText, .simple .printText, .simple .printOrbits]

/-- Reset cell: `del sim; sim = rebound.Simulation("start.bin")`, then add
planets c and b (`mass_c = mass_e` which holds `5e-3`, `mass_b = 3e-3`),
move to the center of mass, print status and the orbital elements. -/
def resetCell : Cell :=
  [.simple .delSim, .simple (.loadSim "start.bin"),
   .simple .assignVar, .simple .assignVar,
   .simple (.addBody (planet_c 0.005)),
   .simple (.addBody (planet_b 0.003)),
   .simple .moveToCom, .simple .statusCall,
   .simple .printText, .simple .printText, .simple .printOrbits]

/-- Long-integration cell: `sim.integrate(100000)` then the orbital-element
print loop. -/
def longRunCell : Cell :=
  [.simple (.integrateTo 100000),
   .simple .printText, .simple .printText, .simple .printOrbits]

/-- A cell consisting of a single `rebound.OrbitPlot(sim, ...)` call. -/
def orbitPlotCell : Cell :=
  [.simple .orbitPlot]

/-- High-mass reset cell, parameterised by the adjustable `mass_e`:
`del sim; sim = rebound.Simulation()`, add the star and all four planets with
masses `mass_e, mass_e, mass_e, mass_e * 0.5`, then `sim.move_to_com()`.
No `sim.units` or `sim.G` assignment appears in this cell. -/
def highMassCell (me : ℝ) : Cell :=
  [.simple .delSim, .simple .newSim,
   .simple (.addBody starCall),
   .simple .assignVar, .simple .assignVar, .simple .assignVar, .simple .assignVar,
   .simple (.addBody (planet_e me)),
   .simple (.addBody (planet_d me)),
   .simple (.addBody (planet_c me)),
   .simple (.addBody (planet_b (me * 0.5))),
   .simple .moveToCom]

/-- Final long run: `sim.integrate(1000000)` then an orbit plot. -/
def finalRunCell : Cell :=
  [.simple (.integrateTo 1000000), .simple .orbitPlot]

/-- Final status cell: `sim.status(showAllFields=False)`. -/
def finalStatusCell : Cell :=
  [.simple .statusCall]

/-! ### Syntactic views of the cells: extractions and classifications -/

/-- The add call carried by a simple statement, if any. -/
def addCallsOfS : SStmt → List AddCall
  | .addBody c => [c]
  | _ => []

/-- All add calls carried by a cell-level statement, looking inside loops,
`try` blocks and function bodies. -/
def addCallsOfStmt : Stmt → List AddCall
  | .simple s => addCallsOfS s
  | .forRange _ body => (body.map addCallsOfS).flatten
  | .tryExcept body handler => ((body ++ handler).map addCallsOfS).flatten
  | .defFun body => (body.map addCallsOfS).flatten

/-- All `sim.add` calls made by a list of cells, in source order. -/
def addCallsOf (cells : List Cell) : List AddCall :=
  (cells.map fun c => (c.map addCallsOfStmt).flatten).flatten

/-- True when an add call supplies all six Keplerian element parameters. -/
def suppliesSixElems (c : AddCall) : Bool :=
  c.a.isSome && c.e.isSome && c.omega.isSome && c.M.isSome && c.inc.isSome && c.Omega.isSome

/-- True when an add call supplies none of the six element parameters
(a mass-only call, as for the central star). -/
def suppliesNoElems (c : AddCall) : Bool :=
  c.a.isNone && c.e.isNone && c.omega.isNone && c.M.isNone && c.inc.isNone && c.Omega.isNone

/-- The angular arguments (omega, inc, Omega) supplied by an add call, in
that order, skipping omitted ones. -/
def anglesOfCall (c : AddCall) : List ℝ :=
  c.omega.toList ++ c.inc.toList ++ c.Omega.toList

/-- Every angular argument supplied by any add call of the given cells. -/
def anglesOf (cells : List Cell) : List ℝ :=
  ((addCallsOf cells).map anglesOfCall).flatten

/-- True for the `try/except` construct. -/
def isTryStmt : Stmt → Bool
  | .tryExcept _ _ => true
  | _ => false

/-- True for a function definition. -/
def isDefFunStmt : Stmt → Bool
  | .defFun _ => true
  | _ => false

/-- True for the `break` statement. -/
def isBreakS : SStmt → Bool
  | .breakStmt => true
  | _ => false

/-- True for the simple statements that are calls into the external libraries
(REBOUND or the display stack): everything except pure-Python bookkeeping
(`assignVar`, `printText` of literals, `breakStmt`) and the install/import
lines. -/
def isExtCallS : SStmt → Bool
  | .newSim | .loadSim _ | .delSim | .setUnits | .setG _ | .setDt _ | .addBody _
  | .saveSim _ | .moveToCom | .integrateTo _ | .captureFramestep
  | .captureFramestepMul _ | .integrateStep | .orbitPlot | .plotOp
  | .printOrbits | .printPeriods | .printPositions | .statusCall => true
  | _ => false

/-- True for the simple statements that perform one of the numerically
significant operations named by the spec: time integration
(`sim.integrate`), orbit-element computation (`sim.calculate_orbits`, also
inside the period print loop), the center-of-mass transform
(`sim.move_to_com`), and binary serialization (`sim.save`). -/
def isNumericOpS : SStmt → Bool
  | .integrateTo _ | .integrateStep | .printOrbits | .printPeriods
  | .moveToCom | .saveSim _ => true
  | _ => false

/-- True for plotting / display statements inside loop bodies. -/
def isPlotS : SStmt → Bool
  | .plotOp | .orbitPlot => true
  | _ => false

/-- The bodies of all `for range` loops of a list of cells. -/
def loopBodiesOf (cells : List Cell) : List (List SStmt) :=
  (cells.map fun c => c.filterMap fun st =>
    match st with
    | .forRange _ body => some body
    | _ => none).flatten

/-- All simple statements of a list of cells, including those inside loops,
`try` blocks and function bodies. -/
def simpleStmtsOf (cells : List Cell) : List SStmt :=
  (cells.map fun c => (c.map fun st =>
    match st with
    | .simple s => [s]
    | .forRange _ body => body
    | .tryExcept body handler => body ++ handler
    | .defFun body => body).flatten).flatten

/-- True for a statement that assigns `sim.units` or `sim.G` (the unit-system
and gravitational-constant assignments). -/
def isUnitsOrG : Stmt → Bool
  | .simple .setUnits => true
  | .simple (.setG _) => true
  | _ => false

/-- The iteration counts of all `for range` loops of a list of cells. -/
def loopCountsOf (cells : List Cell) : List ℕ :=
  (cells.map fun c => c.filterMap fun st =>
    match st with
    | .forRange n _ => some n
    | _ => none).flatten

/-- Summary view of a simulation configuration: for each particle in order,
its mass and (when present) the semi-major axis, inclination and
ascending-node longitude it was added with. -/
def configView (st : NBState) : Option (List (ℝ × Option (ℝ × ℝ × ℝ))) :=
  st.sim.map fun s => s.particles.map fun b =>
    (b.m, b.elems.map fun o => (o.a, o.inc, o.Omega))

/-! ### The two notebooks

Notebook A is the unnamed notebook (`src/unnamed/part_000`, `nframe = 500`,
final `mass_e = 7.3e-3`); notebook B is `src/rebound_HR8799.ipynb`
(`nframe = 220`, final `mass_e = 5e-3`).  They differ only in the animation
frame counts, the plotting calls inside the animation loops, and the final
high-mass value. -/

/-- Body of notebook A's first animation loop:
`op.sim.integrate(sim.t + framestep)`, `clear_output(wait=True)`,
`op.update()`, `fig.canvas.draw()`. -/
def animBodyA1 : List SStmt :=
  [.integrateStep, .plotOp, .plotOp, .plotOp]

/-- Body of notebook A's second animation loop (the `clear_output` line is
commented out in the source): integrate, `op.update()`, `fig.canvas.draw()`. -/
def animBodyA2 : List SStmt :=
  [.integrateStep, .plotOp, .plotOp]

/-- Body of both of notebook B's animation loops:
`op.sim.integrate(sim.t + framestep)`, `display.display(plt.gcf())`,
`display.clear_output(wait=True)`, `op.update()`. -/
def animBodyB : List SStmt :=
  [.integrateStep, .plotOp, .plotOp, .plotOp]

/-- Notebook A's first animation cell: `nframe = 500`, `framestep = sim.dt`,
`fig = op.fig`, then the `for i in range(nframe)` loop. -/
def animCellA1 : Cell :=
  [.simple .assignVar, .simple .captureFramestep, .simple .assignVar,
   .forRange 500 animBodyA1]

/-- Notebook A's second animation cell: `nframe = 500`,
`framestep = 1*sim.dt`, `fig = op.fig`, then the loop. -/
def animCellA2 : Cell :=
  [.simple .assignVar, .simple (.captureFramestepMul 1), .simple .assignVar,
   .forRange 500 animBodyA2]

/-- Notebook B's first animation cell: `nframe = 220`, `framestep = sim.dt`,
`fig = op.fig`, then the loop. -/
def animCellB1 : Cell :=
  [.simple .assignVar, .simple .captureFramestep, .simple .assignVar,
   .forRange 220 animBodyB]

/-- Notebook B's second animation cell: an orbit plot and a
`plt.plot` marker, then `nframe = 220`, `framestep = 1*sim.dt` and the loop. -/
def animCellB2 : Cell :=
  [.simple .orbitPlot, .simple .plotOp,
   .simple .assignVar, .simple (.captureFramestepMul 1),
   .forRange 220 animBodyB]

/-- Notebook A (`src/unnamed/part_000`), cell by cell. -/
def notebookA : List Cell :=
  [[.simple .pipInstall],
   [.simple .importLibs],
   setupCell,
   addEDCell,
   periodsDtCell,
   comPositionsCell,
   plotSaveCell,
   animCellA1,
   statusComPrintCell,
   resetCell,
   orbitPlotCell,
   longRunCell,
   orbitPlotCell,
   animCellA2,
   highMassCell 0.0073,
   finalRunCell,
   finalStatusCell]

/-- Notebook B (`src/rebound_HR8799.ipynb`), cell by cell. -/
def notebookB : List Cell :=
  [[.simple .pipInstall],
   [.simple .importLibs],
   setupCell,
   addEDCell,
   periodsDtCell,
   comPositionsCell,
   plotSaveCell,
   animCellB1,
   statusComPrintCell,
   resetCell,
   orbitPlotCell,
   longRunCell,
   animCellB2,
   highMassCell 0.005,
   finalRunCell,
   finalStatusCell]

/-! ### Helper lemmas about the animation loops -/

/-- The state of the simulation after `n` successive
`op.sim.integrate(sim.t + framestep)` steps with a fixed captured
framestep `fs`. -/
def stepN (evol : Evol) : ℕ → ℝ → SimState → SimState
  | 0, _, s => s
  | n + 1, fs, s => stepN evol n fs (integrateSim evol s (s.t + fs))

theorem stepN_t (evol : Evol) (n : ℕ) (fs : ℝ) (s : SimState) :
    (stepN evol n fs s).t = s.t + n * fs := by
  induction n generalizing s with
  | zero => simp [stepN]
  | succ n ih =>
      rw [stepN, ih]
      simp only [integrateSim]
      push_cast
      ring

theorem stepN_dt (evol : Evol) (n : ℕ) (fs : ℝ) (s : SimState) :
    (stepN evol n fs s).dt = s.dt := by
  induction n generalizing s with
  | zero => rfl
  | succ n ih => rw [stepN, ih]; rfl

theorem stepN_G (evol : Evol) (n : ℕ) (fs : ℝ) (s : SimState) :
    (stepN evol n fs s).G = s.G := by
  induction n generalizing s with
  | zero => rfl
  | succ n ih => rw [stepN, ih]; rfl

/-- Running a tail of plotting statements changes nothing and does not
break. -/
theorem runSeq_plots (evol : Evol) (plots : List SStmt)
    (hplots : ∀ p ∈ plots, p = SStmt.plotOp) (st : NBState) :
    runSeq evol plots st = .ok (st, false) := by
  induction plots with
  | nil => rfl
  | cons p rest ih =>
      have hp := hplots p (List.mem_cons_self p rest)
      subst hp
      simp only [runSeq, runS]
      exact ih fun q hq => hplots q (List.mem_cons_of_mem _ hq)

/-- Running the body `integrateStep :: plots` of an animation loop once:
the simulation advances by one captured framestep, the integrate counter
goes up by one, and the iteration does not break. -/
theorem runSeq_animBody (evol : Evol) (plots : List SStmt)
    (hplots : ∀ p ∈ plots, p = SStmt.plotOp)
    (fs : ℝ) (fl : List (String × SimState)) (lg : List FileOp)
    (tb : List (List (List ℝ))) (ni : ℕ) (s : SimState) :
    runSeq evol (SStmt.integrateStep :: plots) ⟨some s, fs, fl, lg, tb, ni⟩ =
      .ok (⟨some (integrateSim evol s (s.t + fs)), fs, fl, lg, tb, ni + 1⟩, false) := by
  rw [show runSeq evol (SStmt.integrateStep :: plots) ⟨some s, fs, fl, lg, tb, ni⟩ =
      runSeq evol plots ⟨some (integrateSim evol s (s.t + fs)), fs, fl, lg, tb, ni + 1⟩
      from rfl]
  exact runSeq_plots evol plots hplots _

/-- Running an animation loop `n` times: the simulation is stepped `n` times
with the captured framestep, and nothing else in the interpreter state
changes. -/
theorem iterateLoop_animBody (evol : Evol) (plots : List SStmt)
    (hplots : ∀ p ∈ plots, p = SStmt.plotOp)
    (n : ℕ) :
    ∀ (fs : ℝ) (fl : List (String × SimState)) (lg : List FileOp)
      (tb : List (List (List ℝ))) (ni : ℕ) (s : SimState),
    iterateLoop evol n (SStmt.integrateStep :: plots) ⟨some s, fs, fl, lg, tb, ni⟩ =
      .ok ⟨some (stepN evol n fs s), fs, fl, lg, tb, ni + n⟩ := by
  induction n with
  | zero => intro fs fl lg tb ni s; rfl
  | succ n ih =>
      intro fs fl lg tb ni s
      rw [iterateLoop, runSeq_animBody evol plots hplots fs fl lg tb ni s]
      rw [show (match (Except.ok
            ((⟨some (integrateSim evol s (s.t + fs)), fs, fl, lg, tb, ni + 1⟩ : NBState),
             false) : Except RunErr (NBState × Bool)) with
          | .error e => .error e
          | .ok (st', true) => .ok st'
          | .ok (st', false) => iterateLoop evol n (SStmt.integrateStep :: plots) st') =
          iterateLoop evol n (SStmt.integrateStep :: plots)
            ⟨some (integrateSim evol s (s.t + fs)), fs, fl, lg, tb, ni + 1⟩ from rfl]
      rw [ih fs fl lg tb (ni + 1) (integrateSim evol s (s.t + fs))]
      rw [stepN]
      have harith : ni + 1 + n = ni + (n + 1) := by omega
      rw [harith]

theorem plots_three : ∀ p ∈ [SStmt.plotOp, SStmt.plotOp, SStmt.plotOp], p = SStmt.plotOp := by
  intro p hp
  simp only [List.mem_cons, List.not_mem_nil, or_false] at hp
  rcases hp with hp | hp | hp <;> exact hp

theorem plots_two : ∀ p ∈ [SStmt.plotOp, SStmt.plotOp], p = SStmt.plotOp := by
  intro p hp
  simp only [List.mem_cons, List.not_mem_nil, or_false] at hp
  rcases hp with hp | hp <;> exact hp

/-- Stepping one statement of a cell whose execution succeeds. -/
theorem runCell_cons_ok (evol : Evol) {x : Stmt} {st st₁ : NBState} {rest : List Stmt}
    (h : runStmt evol st x = .ok st₁) :
    runCell evol (x :: rest) st = runCell evol rest st₁ := by
  rw [runCell, h]

/-- Effect of notebook A's first animation cell: `framestep` is captured as
`sim.dt`, the simulation is stepped 500 times by that framestep, and nothing
else changes. -/
theorem runCell_animA1 (evol : Evol) (fs0 : ℝ) (fl : List (String × SimState))
    (lg : List FileOp) (tb : List (List (List ℝ))) (ni : ℕ) (s : SimState) :
    runCell evol animCellA1 ⟨some s, fs0, fl, lg, tb, ni⟩ =
      .ok ⟨some (stepN evol 500 s.dt s), s.dt, fl, lg, tb, ni + 500⟩ := by
  refine (runCell_cons_ok evol (show runStmt evol ⟨some s, fs0, fl, lg, tb, ni⟩
      (.simple .assignVar) = .ok ⟨some s, fs0, fl, lg, tb, ni⟩ from rfl)).trans ?_
  refine (runCell_cons_ok evol (show runStmt evol ⟨some s, fs0, fl, lg, tb, ni⟩
      (.simple .captureFramestep) = .ok ⟨some s, s.dt, fl, lg, tb, ni⟩ from rfl)).trans ?_
  refine (runCell_cons_ok evol (show runStmt evol ⟨some s, s.dt, fl, lg, tb, ni⟩
      (.simple .assignVar) = .ok ⟨some s, s.dt, fl, lg, tb, ni⟩ from rfl)).trans ?_
  refine (runCell_cons_ok evol (show runStmt evol ⟨some s, s.dt, fl, lg, tb, ni⟩
      (.forRange 500 animBodyA1) =
      .ok ⟨some (stepN evol 500 s.dt s), s.dt, fl, lg, tb, ni + 500⟩ from
      iterateLoop_animBody evol [SStmt.plotOp, SStmt.plotOp, SStmt.plotOp] plots_three
        500 s.dt fl lg tb ni s)).trans ?_
  rfl

/-- The `for` loop of notebook A's second animation cell, as a statement-level
step, for an arbitrary captured framestep `q`. -/
theorem runStmt_loopA2 (evol : Evol) (q : ℝ) (fl : List (String × SimState))
    (lg : List FileOp) (tb : List (List (List ℝ))) (ni : ℕ) (s : SimState) :
    runStmt evol ⟨some s, q, fl, lg, tb, ni⟩ (.forRange 500 animBodyA2) =
      .ok ⟨some (stepN evol 500 q s), q, fl, lg, tb, ni + 500⟩ :=
  iterateLoop_animBody evol [SStmt.plotOp, SStmt.plotOp] plots_two 500 q fl lg tb ni s

/-- The `for` loop of notebook B's animation cells, as a statement-level step,
for an arbitrary captured framestep `q`. -/
theorem runStmt_loopB (evol : Evol) (q : ℝ) (fl : List (String × SimState))
    (lg : List FileOp) (tb : List (List (List ℝ))) (ni : ℕ) (s : SimState) :
    runStmt evol ⟨some s, q, fl, lg, tb, ni⟩ (.forRange 220 animBodyB) =
      .ok ⟨some (stepN evol 220 q s), q, fl, lg, tb, ni + 220⟩ :=
  iterateLoop_animBody evol [SStmt.plotOp, SStmt.plotOp, SStmt.plotOp] plots_three
    220 q fl lg tb ni s

/-- Effect of notebook A's second animation cell: `framestep` is captured as
`1 * sim.dt` and the simulation is stepped 500 times by it. -/
theorem runCell_animA2 (evol : Evol) (fs0 : ℝ) (fl : List (String × SimState))
    (lg : List FileOp) (tb : List (List (List ℝ))) (ni : ℕ) (s : SimState) :
    runCell evol animCellA2 ⟨some s, fs0, fl, lg, tb, ni⟩ =
      .ok ⟨some (stepN evol 500 (1 * s.dt) s), 1 * s.dt, fl, lg, tb, ni + 500⟩ := by
  refine (runCell_cons_ok evol (show runStmt evol ⟨some s, fs0, fl, lg, tb, ni⟩
      (.simple .assignVar) = .ok ⟨some s, fs0, fl, lg, tb, ni⟩ from rfl)).trans ?_
  refine (runCell_cons_ok evol (show runStmt evol ⟨some s, fs0, fl, lg, tb, ni⟩
      (.simple (.captureFramestepMul 1)) =
      .ok ⟨some s, 1 * s.dt, fl, lg, tb, ni⟩ from rfl)).trans ?_
  refine (runCell_cons_ok evol (show runStmt evol ⟨some s, 1 * s.dt, fl, lg, tb, ni⟩
      (.simple .assignVar) = .ok ⟨some s, 1 * s.dt, fl, lg, tb, ni⟩ from rfl)).trans ?_
  refine (runCell_cons_ok evol (runStmt_loopA2 evol (1 * s.dt) fl lg tb ni s)).trans ?_
  rfl

/-- Effect of notebook B's first animation cell: `framestep` is captured as
`sim.dt` and the simulation is stepped 220 times by it. -/
theorem runCell_animB1 (evol : Evol) (fs0 : ℝ) (fl : List (String × SimState))
    (lg : List FileOp) (tb : List (List (List ℝ))) (ni : ℕ) (s : SimState) :
    runCell evol animCellB1 ⟨some s, fs0, fl, lg, tb, ni⟩ =
      .ok ⟨some (stepN evol 220 s.dt s), s.dt, fl, lg, tb, ni + 220⟩ := by
  refine (runCell_cons_ok evol (show runStmt evol ⟨some s, fs0, fl, lg, tb, ni⟩
      (.simple .assignVar) = .ok ⟨some s, fs0, fl, lg, tb, ni⟩ from rfl)).trans ?_
  refine (runCell_cons_ok evol (show runStmt evol ⟨some s, fs0, fl, lg, tb, ni⟩
      (.simple .captureFramestep) = .ok ⟨some s, s.dt, fl, lg, tb, ni⟩ from rfl)).trans ?_
  refine (runCell_cons_ok evol (show runStmt evol ⟨some s, s.dt, fl, lg, tb, ni⟩
      (.simple .assignVar) = .ok ⟨some s, s.dt, fl, lg, tb, ni⟩ from rfl)).trans ?_
  refine (runCell_cons_ok evol (show runStmt evol ⟨some s, s.dt, fl, lg, tb, ni⟩
      (.forRange 220 animBodyB) =
      .ok ⟨some (stepN evol 220 s.dt s), s.dt, fl, lg, tb, ni + 220⟩ from
      iterateLoop_animBody evol [SStmt.plotOp, SStmt.plotOp, SStmt.plotOp] plots_three
        220 s.dt fl lg tb ni s)).trans ?_
  rfl

/-- Effect of notebook B's second animation cell: `framestep` is captured as
`1 * sim.dt` and the simulation is stepped 220 times by it. -/
theorem runCell_animB2 (evol : Evol) (fs0 : ℝ) (fl : List (String × SimState))
    (lg : List FileOp) (tb : List (List (List ℝ))) (ni : ℕ) (s : SimState) :
    runCell evol animCellB2 ⟨some s, fs0, fl, lg, tb, ni⟩ =
      .ok ⟨some (stepN evol 220 (1 * s.dt) s), 1 * s.dt, fl, lg, tb, ni + 220⟩ := by
  refine (runCell_cons_ok evol (show runStmt evol ⟨some s, fs0, fl, lg, tb, ni⟩
      (.simple .orbitPlot) = .ok ⟨some s, fs0, fl, lg, tb, ni⟩ from rfl)).trans ?_
  refine (runCell_cons_ok evol (show runStmt evol ⟨some s, fs0, fl, lg, tb, ni⟩
      (.simple .plotOp) = .ok ⟨some s, fs0, fl, lg, tb, ni⟩ from rfl)).trans ?_
  refine (runCell_cons_ok evol (show runStmt evol ⟨some s, fs0, fl, lg, tb, ni⟩
      (.simple .assignVar) = .ok ⟨some s, fs0, fl, lg, tb, ni⟩ from rfl)).trans ?_
  refine (runCell_cons_ok evol (show runStmt evol ⟨some s, fs0, fl, lg, tb, ni⟩
      (.simple (.captureFramestepMul 1)) =
      .ok ⟨some s, 1 * s.dt, fl, lg, tb, ni⟩ from rfl)).trans ?_
  refine (runCell_cons_ok evol (runStmt_loopB evol (1 * s.dt) fl lg tb ni s)).trans ?_
  rfl

/-! ### Symbolic execution of the notebooks, cell by cell

The interpreter states reached after each cell, and lemmas chaining them.
A state is written out once per cell boundary; the animation cells are crossed
with the loop lemmas above, so no proof ever unrolls a 500- or 220-iteration
loop. -/

theorem runCells_cons_ok (evol : Evol) {c : Cell} {st st₁ : NBState} {rest : List Cell}
    (h : runCell evol c st = .ok st₁) :
    runCells evol (c :: rest) st = runCells evol rest st₁ := by
  rw [runCells, h]

theorem runCells_append_ok (evol : Evol) {l₁ l₂ : List Cell} {st st₁ : NBState}
    (h : runCells evol l₁ st = .ok st₁) :
    runCells evol (l₁ ++ l₂) st = runCells evol l₂ st₁ := by
  induction l₁ generalizing st with
  | nil =>
      rw [runCells] at h
      cases h
      rw [List.nil_append]
  | cons c rest ih =>
      rw [runCells] at h
      rw [show ((c :: rest) ++ l₂ : List Cell) = c :: (rest ++ l₂) from rfl, runCells]
      cases hc : runCell evol c st with
      | error e => rw [hc] at h; cases h
      | ok stm => rw [hc] at h; exact ih (h : runCells evol rest stm = .ok st₁)

/-- The simulation after the setup cell: empty, with the astronomical units
chosen and the explicit gravitational constant. -/
def simSetup : SimState := ⟨[], 0, 0.001, 39.476926408897626, true⟩

/-- The central star as stored by `sim.add(m=1.50)`. -/
def bodyStar : Body := ⟨1.50, none⟩

/-- Planet HR 8799 e as stored, with the given mass. -/
def body_e (m : ℝ) : Body := ⟨m, some ⟨16.64, 0.1397, 118.8 * dtor, 1.261, inc_pl, Omega_pl⟩⟩

/-- Planet HR 8799 d as stored, with the given mass. -/
def body_d (m : ℝ) : Body := ⟨m, some ⟨26.29, 0.1112, 24.3 * dtor, 2.032, inc_pl, Omega_pl⟩⟩

/-- Planet HR 8799 c as stored, with the given mass. -/
def body_c (m : ℝ) : Body := ⟨m, some ⟨43.12, 0.0561, 28.5 * dtor, 4.232, inc_pl, Omega_pl⟩⟩

/-- Planet HR 8799 b as stored, with the given mass. -/
def body_b (m : ℝ) : Body := ⟨m, some ⟨70.50, 0.0113, 213.6 * dtor, 2.642, inc_pl, Omega_pl⟩⟩

/-- The simulation after the star and planets e, d are added. -/
def simED : SimState :=
  ⟨[bodyStar, body_e 0.005, body_d 0.005], 0, 0.001, 39.476926408897626, true⟩

/-- The simulation as saved to `start.bin`: star, e, d, with `dt = 1.0`. -/
def simStart : SimState :=
  ⟨[bodyStar, body_e 0.005, body_d 0.005], 0, 1.0, 39.476926408897626, true⟩

/-- The simulation after the reset cell: the saved three-body state with
planets c and b added. -/
def simFive : SimState :=
  ⟨[bodyStar, body_e 0.005, body_d 0.005, body_c 0.005, body_b 0.003],
   0, 1.0, 39.476926408897626, true⟩

/-- The simulation after `sim.integrate(100000)` on the five-body system. -/
def simLong (evol : Evol) : SimState := integrateSim evol simFive 100000

/-- The five-body simulation built by the high-mass reset cell with the
adjustable `mass_e`: fresh library defaults (`G = 1`, no units). -/
def simHigh (me : ℝ) : SimState :=
  ⟨[bodyStar, body_e me, body_d me, body_c me, body_b (me * 0.5)], 0, 0.001, 1, false⟩

/-- Interpreter state after the first four cells of either notebook. -/
def nbAfter4 : NBState :=
  ⟨some simED, 0, [], [], [orbitsTable simED.particles], 0⟩

/-- Interpreter state after the first seven cells of either notebook
(`start.bin` has just been written). -/
def nbAfter7 : NBState :=
  ⟨some simStart, 0, [("start.bin", simStart)], [.write "start.bin"],
   [orbitsTable simED.particles], 0⟩

/-- Interpreter state after the first ten cells of notebook A (the reset cell
has just rebuilt the five-body system from `start.bin`). -/
def nbA10 (evol : Evol) : NBState :=
  ⟨some simFive, simStart.dt, [("start.bin", simStart)],
   [.write "start.bin", .read "start.bin"],
   [orbitsTable simED.particles,
    orbitsTable (stepN evol 500 simStart.dt simStart).particles,
    orbitsTable simFive.particles], 500⟩

/-- Interpreter state after the first fifteen cells of notebook A (the
high-mass cell has just run). -/
def nbA15 (evol : Evol) : NBState :=
  ⟨some (simHigh 0.0073), 1 * (simLong evol).dt, [("start.bin", simStart)],
   [.write "start.bin", .read "start.bin"],
   [orbitsTable simED.particles,
    orbitsTable (stepN evol 500 simStart.dt simStart).particles,
    orbitsTable simFive.particles,
    orbitsTable (simLong evol).particles], 1001⟩

/-- Final interpreter state of notebook A. -/
def nbAfin (evol : Evol) : NBState :=
  ⟨some (integrateSim evol (simHigh 0.0073) 1000000), 1 * (simLong evol).dt,
   [("start.bin", simStart)], [.write "start.bin", .read "start.bin"],
   [orbitsTable simED.particles,
    orbitsTable (stepN evol 500 simStart.dt simStart).particles,
    orbitsTable simFive.particles,
    orbitsTable (simLong evol).particles], 1002⟩

/-- Interpreter state after the first ten cells of notebook B. -/
def nbB10 (evol : Evol) : NBState :=
  ⟨some simFive, simStart.dt, [("start.bin", simStart)],
   [.write "start.bin", .read "start.bin"],
   [orbitsTable simED.particles,
    orbitsTable (stepN evol 220 simStart.dt simStart).particles,
    orbitsTable simFive.particles], 220⟩

/-- Interpreter state after the first fourteen cells of notebook B (the
high-mass cell has just run). -/
def nbB14 (evol : Evol) : NBState :=
  ⟨some (simHigh 0.005), 1 * (simLong evol).dt, [("start.bin", simStart)],
   [.write "start.bin", .read "start.bin"],
   [orbitsTable simED.particles,
    orbitsTable (stepN evol 220 simStart.dt simStart).particles,
    orbitsTable simFive.particles,
    orbitsTable (simLong evol).particles], 441⟩

/-- Final interpreter state of notebook B. -/
def nbBfin (evol : Evol) : NBState :=
  ⟨some (integrateSim evol (simHigh 0.005) 1000000), 1 * (simLong evol).dt,
   [("start.bin", simStart)], [.write "start.bin", .read "start.bin"],
   [orbitsTable simED.particles,
    orbitsTable (stepN evol 220 simStart.dt simStart).particles,
    orbitsTable simFive.particles,
    orbitsTable (simLong evol).particles], 442⟩

/-- Cells 0-3 (install, imports, setup, add star-e-d with element printing). -/
theorem runPref4 (evol : Evol) :
    runCells evol (notebookA.take 4) initNB = .ok nbAfter4 := by
  show runCells evol
      [[.simple .pipInstall], [.simple .importLibs], setupCell, addEDCell] initNB = _
  refine (runCells_cons_ok evol (show runCell evol [.simple .pipInstall] initNB =
      .ok initNB from rfl)).trans ?_
  refine (runCells_cons_ok evol (show runCell evol [.simple .importLibs] initNB =
      .ok initNB from rfl)).trans ?_
  refine (runCells_cons_ok evol (show runCell evol setupCell initNB =
      .ok ⟨some simSetup, 0, [], [], [], 0⟩ from rfl)).trans ?_
  refine (runCells_cons_ok evol (show runCell evol addEDCell
      ⟨some simSetup, 0, [], [], [], 0⟩ = .ok nbAfter4 from rfl)).trans ?_
  rfl

/-- Cells 0-6 (through the cell that saves `start.bin`). -/
theorem runPref7 (evol : Evol) :
    runCells evol (notebookA.take 7) initNB = .ok nbAfter7 := by
  show runCells evol (notebookA.take 4 ++ [periodsDtCell, comPositionsCell, plotSaveCell])
      initNB = _
  rw [runCells_append_ok evol (runPref4 evol)]
  refine (runCells_cons_ok evol (show runCell evol periodsDtCell nbAfter4 =
      .ok ⟨some simStart, 0, [], [], [orbitsTable simED.particles], 0⟩ from rfl)).trans ?_
  refine (runCells_cons_ok evol (show runCell evol comPositionsCell
      ⟨some simStart, 0, [], [], [orbitsTable simED.particles], 0⟩ =
      .ok ⟨some simStart, 0, [], [], [orbitsTable simED.particles], 0⟩ from rfl)).trans ?_
  refine (runCells_cons_ok evol (show runCell evol plotSaveCell
      ⟨some simStart, 0, [], [], [orbitsTable simED.particles], 0⟩ =
      .ok nbAfter7 from rfl)).trans ?_
  rfl

/-- Cells 0-9 of notebook A (through the reset cell). -/
theorem runPrefA10 (evol : Evol) :
    runCells evol (notebookA.take 10) initNB = .ok (nbA10 evol) := by
  show runCells evol (notebookA.take 7 ++ [animCellA1, statusComPrintCell, resetCell])
      initNB = _
  rw [runCells_append_ok evol (runPref7 evol)]
  refine (runCells_cons_ok evol (runCell_animA1 evol 0 [("start.bin", simStart)]
      [.write "start.bin"] [orbitsTable simED.particles] 0 simStart)).trans ?_
  refine (runCells_cons_ok evol (show runCell evol statusComPrintCell
      ⟨some (stepN evol 500 simStart.dt simStart), simStart.dt,
       [("start.bin", simStart)], [.write "start.bin"],
       [orbitsTable simED.particles], 500⟩ =
      .ok ⟨some (stepN evol 500 simStart.dt simStart), simStart.dt,
       [("start.bin", simStart)], [.write "start.bin"],
       [orbitsTable simED.particles,
        orbitsTable (stepN evol 500 simStart.dt simStart).particles], 500⟩
      from rfl)).trans ?_
  refine (runCells_cons_ok evol (show runCell evol resetCell
      ⟨some (stepN evol 500 simStart.dt simStart), simStart.dt,
       [("start.bin", simStart)], [.write "start.bin"],
       [orbitsTable simED.particles,
        orbitsTable (stepN evol 500 simStart.dt simStart).particles], 500⟩ =
      .ok (nbA10 evol) from rfl)).trans ?_
  rfl

/-- Cells 0-14 of notebook A (through the high-mass reset cell). -/
theorem runPrefA15 (evol : Evol) :
    runCells evol (notebookA.take 15) initNB = .ok (nbA15 evol) := by
  show runCells evol (notebookA.take 10 ++
      [orbitPlotCell, longRunCell, orbitPlotCell, animCellA2, highMassCell 0.0073])
      initNB = _
  rw [runCells_append_ok evol (runPrefA10 evol)]
  refine (runCells_cons_ok evol (show runCell evol orbitPlotCell (nbA10 evol) =
      .ok (nbA10 evol) from rfl)).trans ?_
  refine (runCells_cons_ok evol (show runCell evol longRunCell (nbA10 evol) =
      .ok ⟨some (simLong evol), simStart.dt, [("start.bin", simStart)],
       [.write "start.bin", .read "start.bin"],
       [orbitsTable simED.particles,
        orbitsTable (stepN evol 500 simStart.dt simStart).particles,
        orbitsTable simFive.particles,
        orbitsTable (simLong evol).particles], 501⟩ from rfl)).trans ?_
  refine (runCells_cons_ok evol (show runCell evol orbitPlotCell
      ⟨some (simLong evol), simStart.dt, [("start.bin", simStart)],
       [.write "start.bin", .read "start.bin"],
       [orbitsTable simED.particles,
        orbitsTable (stepN evol 500 simStart.dt simStart).particles,
        orbitsTable simFive.particles,
        orbitsTable (simLong evol).particles], 501⟩ =
      .ok ⟨some (simLong evol), simStart.dt, [("start.bin", simStart)],
       [.write "start.bin", .read "start.bin"],
       [orbitsTable simED.particles,
        orbitsTable (stepN evol 500 simStart.dt simStart).particles,
        orbitsTable simFive.particles,
        orbitsTable (simLong evol).particles], 501⟩ from rfl)).trans ?_
  refine (runCells_cons_ok evol (runCell_animA2 evol simStart.dt
      [("start.bin", simStart)] [.write "start.bin", .read "start.bin"]
      [orbitsTable simED.particles,
       orbitsTable (stepN evol 500 simStart.dt simStart).particles,
       orbitsTable simFive.particles,
       orbitsTable (simLong evol).particles] 501 (simLong evol))).trans ?_
  refine (runCells_cons_ok evol (show runCell evol (highMassCell 0.0073)
      ⟨some (stepN evol 500 (1 * (simLong evol).dt) (simLong evol)),
       1 * (simLong evol).dt, [("start.bin", simStart)],
       [.write "start.bin", .read "start.bin"],
       [orbitsTable simED.particles,
        orbitsTable (stepN evol 500 simStart.dt simStart).particles,
        orbitsTable simFive.particles,
        orbitsTable (simLong evol).particles], 1001⟩ =
      .ok (nbA15 evol) from rfl)).trans ?_
  rfl

/-- The complete run of notebook A. -/
theorem runFullA (evol : Evol) :
    runCells evol notebookA initNB = .ok (nbAfin evol) := by
  show runCells evol (notebookA.take 15 ++ [finalRunCell, finalStatusCell]) initNB = _
  rw [runCells_append_ok evol (runPrefA15 evol)]
  refine (runCells_cons_ok evol (show runCell evol finalRunCell (nbA15 evol) =
      .ok (nbAfin evol) from rfl)).trans ?_
  refine (runCells_cons_ok evol (show runCell evol finalStatusCell (nbAfin evol) =
      .ok (nbAfin evol) from rfl)).trans ?_
  rfl

/-- Cells 0-3 of notebook B coincide with those of notebook A. -/
theorem runPrefB4 (evol : Evol) :
    runCells evol (notebookB.take 4) initNB = .ok nbAfter4 :=
  runPref4 evol

/-- Cells 0-9 of notebook B (through the reset cell). -/
theorem runPrefB10 (evol : Evol) :
    runCells evol (notebookB.take 10) initNB = .ok (nbB10 evol) := by
  show runCells evol (notebookA.take 7 ++ [animCellB1, statusComPrintCell, resetCell])
      initNB = _
  rw [runCells_append_ok evol (runPref7 evol)]
  refine (runCells_cons_ok evol (runCell_animB1 evol 0 [("start.bin", simStart)]
      [.write "start.bin"] [orbitsTable simED.particles] 0 simStart)).trans ?_
  refine (runCells_cons_ok evol (show runCell evol statusComPrintCell
      ⟨some (stepN evol 220 simStart.dt simStart), simStart.dt,
       [("start.bin", simStart)], [.write "start.bin"],
       [orbitsTable simED.particles], 220⟩ =
      .ok ⟨some (stepN evol 220 simStart.dt simStart), simStart.dt,
       [("start.bin", simStart)], [.write "start.bin"],
       [orbitsTable simED.particles,
        orbitsTable (stepN evol 220 simStart.dt simStart).particles], 220⟩
      from rfl)).trans ?_
  refine (runCells_cons_ok evol (show runCell evol resetCell
      ⟨some (stepN evol 220 simStart.dt simStart), simStart.dt,
       [("start.bin", simStart)], [.write "start.bin"],
       [orbitsTable simED.particles,
        orbitsTable (stepN evol 220 simStart.dt simStart).particles], 220⟩ =
      .ok (nbB10 evol) from rfl)).trans ?_
  rfl

/-- Cells 0-13 of notebook B (through the high-mass reset cell). -/
theorem runPrefB14 (evol : Evol) :
    runCells evol (notebookB.take 14) initNB = .ok (nbB14 evol) := by
  show runCells evol (notebookB.take 10 ++
      [orbitPlotCell, longRunCell, animCellB2, highMassCell 0.005]) initNB = _
  rw [runCells_append_ok evol (runPrefB10 evol)]
  refine (runCells_cons_ok evol (show runCell evol orbitPlotCell (nbB10 evol) =
      .ok (nbB10 evol) from rfl)).trans ?_
  refine (runCells_cons_ok evol (show runCell evol longRunCell (nbB10 evol) =
      .ok ⟨some (simLong evol), simStart.dt, [("start.bin", simStart)],
       [.write "start.bin", .read "start.bin"],
       [orbitsTable simED.particles,
        orbitsTable (stepN evol 220 simStart.dt simStart).particles,
        orbitsTable simFive.particles,
        orbitsTable (simLong evol).particles], 221⟩ from rfl)).trans ?_
  refine (runCells_cons_ok evol (runCell_animB2 evol simStart.dt
      [("start.bin", simStart)] [.write "start.bin", .read "start.bin"]
      [orbitsTable simED.particles,
       orbitsTable (stepN evol 220 simStart.dt simStart).particles,
       orbitsTable simFive.particles,
       orbitsTable (simLong evol).particles] 221 (simLong evol))).trans ?_
  refine (runCells_cons_ok evol (show runCell evol (highMassCell 0.005)
      ⟨some (stepN evol 220 (1 * (simLong evol).dt) (simLong evol)),
       1 * (simLong evol).dt, [("start.bin", simStart)],
       [.write "start.bin", .read "start.bin"],
       [orbitsTable simED.particles,
        orbitsTable (stepN evol 220 simStart.dt simStart).particles,
        orbitsTable simFive.particles,
        orbitsTable (simLong evol).particles], 441⟩ =
      .ok (nbB14 evol) from rfl)).trans ?_
  rfl

/-- The complete run of notebook B. -/
theorem runFullB (evol : Evol) :
    runCells evol notebookB initNB = .ok (nbBfin evol) := by
  show runCells evol (notebookB.take 14 ++ [finalRunCell, finalStatusCell]) initNB = _
  rw [runCells_append_ok evol (runPrefB14 evol)]
  refine (runCells_cons_ok evol (show runCell evol finalRunCell (nbB14 evol) =
      .ok (nbBfin evol) from rfl)).trans ?_
  refine (runCells_cons_ok evol (show runCell evol finalStatusCell (nbBfin evol) =
      .ok (nbBfin evol) from rfl)).trans ?_
  rfl

/-! ### The claims -/

/-- C1.  Simulation state is carried across executions of the animation-loop
cell: from any entry state whose simulation is `s`, one complete execution of
the loop cell captures `framestep = sim.dt` and leaves the simulation time at
its entry value plus `nframe * framestep` (500 frames in notebook A, 220 in
notebook B); re-running the cell continues from there, adding another
`nframe * framestep`, and with the time step the notebooks use (`dt = 1`) the
loop never returns the time to its entry value. -/
theorem claim_C1_state_carried (evol : Evol) (st : NBState) (s : SimState) :
    (∃ st₁ s₁,
      runCell evol animCellA1 { st with sim := some s } = .ok st₁ ∧
      st₁.sim = some s₁ ∧ st₁.framestep = s.dt ∧
      s₁.t = s.t + 500 * s.dt ∧ s₁.dt = s.dt ∧
      ∃ st₂ s₂, runCell evol animCellA1 st₁ = .ok st₂ ∧ st₂.sim = some s₂ ∧
        s₂.t = s.t + 500 * s.dt + 500 * s.dt) ∧
    (∃ st₁ s₁,
      runCell evol animCellB1 { st with sim := some s } = .ok st₁ ∧
      st₁.sim = some s₁ ∧ st₁.framestep = s.dt ∧
      s₁.t = s.t + 220 * s.dt ∧ s₁.dt = s.dt) ∧
    (∃ st₁ s₁,
      runCell evol animCellA1 { st with sim := some { s with dt := 1 } } = .ok st₁ ∧
      st₁.sim = some s₁ ∧ s₁.t = s.t + 500 ∧ s₁.t ≠ s.t) := by
  refine ⟨?_, ?_, ?_⟩
  · refine ⟨_, _,
      runCell_animA1 evol st.framestep st.files st.fsLog st.tables st.nInteg s,
      rfl, rfl, ?_, ?_, ?_⟩
    · rw [stepN_t]; norm_num
    · rw [stepN_dt]
    · refine ⟨_, _,
        runCell_animA1 evol s.dt st.files st.fsLog st.tables (st.nInteg + 500)
          (stepN evol 500 s.dt s), rfl, ?_⟩
      rw [stepN_t, stepN_dt, stepN_t]
      norm_num
  · refine ⟨_, _,
      runCell_animB1 evol st.framestep st.files st.fsLog st.tables st.nInteg s,
      rfl, rfl, ?_, ?_⟩
    · rw [stepN_t]; norm_num
    · rw [stepN_dt]
  · refine ⟨_, _,
      runCell_animA1 evol st.framestep st.files st.fsLog st.tables st.nInteg
        { s with dt := 1 }, rfl, ?_, ?_⟩
    · rw [stepN_t]; norm_num
    · rw [stepN_t]; norm_num

/-- C2, counterexample.  Not every `sim.add` call supplies the six orbital
element parameters: the very first call of each notebook,
`sim.add(m=1.50)` for the central star, supplies none of them. -/
theorem claim_C2_cex :
    ¬ ∀ c ∈ addCallsOf notebookA ++ addCallsOf notebookB, suppliesSixElems c = true := by
  intro hall
  have hmem : starCall ∈ addCallsOf notebookA ++ addCallsOf notebookB := by
    have h1 : addCallsOf notebookA =
        [starCall, planet_e 0.005, planet_d 0.005, planet_c 0.005, planet_b 0.003,
         starCall, planet_e 0.0073, planet_d 0.0073, planet_c 0.0073,
         planet_b (0.0073 * 0.5)] := rfl
    rw [h1]
    exact List.mem_append_left _ (List.mem_cons_self _ _)
  have hfalse := hall starCall hmem
  rw [show suppliesSixElems starCall = false from rfl] at hfalse
  exact Bool.false_ne_true hfalse

/-- C2, amended.  Every `sim.add` call made by the notebooks either supplies
all six Keplerian element parameters (each planet addition) or supplies only a
mass and no element parameter at all (the central-star additions); the full
call lists of both notebooks are as written in the source. -/
theorem claim_C2_add_calls :
    ((addCallsOf notebookA ++ addCallsOf notebookB).all fun c =>
        suppliesSixElems c || suppliesNoElems c) = true ∧
    addCallsOf notebookA =
      [starCall, planet_e 0.005, planet_d 0.005, planet_c 0.005, planet_b 0.003,
       starCall, planet_e 0.0073, planet_d 0.0073, planet_c 0.0073,
       planet_b (0.0073 * 0.5)] ∧
    addCallsOf notebookB =
      [starCall, planet_e 0.005, planet_d 0.005, planet_c 0.005, planet_b 0.003,
       starCall, planet_e 0.005, planet_d 0.005, planet_c 0.005,
       planet_b (0.005 * 0.5)] ∧
    suppliesNoElems starCall = true ∧
    ∀ m : ℝ, suppliesSixElems (planet_e m) = true ∧ suppliesSixElems (planet_d m) = true ∧
      suppliesSixElems (planet_c m) = true ∧ suppliesSixElems (planet_b m) = true :=
  ⟨rfl, rfl, rfl, rfl, fun _ => ⟨rfl, rfl, rfl, rfl⟩⟩

/-- C3.  The body-addition pathway is unguarded: for every real mass value
`me` (including negative ones), the high-mass reset cell runs without any
check or alteration, the masses reaching `sim.add` are exactly
`1.50, me, me, me, me * 0.5`, and the eccentricity arguments are the fixed
literals of the source, independent of any validation; in general
`sim.add` records any call's mass and elements exactly as given. -/
theorem claim_C3_unguarded (evol : Evol) (me : ℝ) (st : NBState) :
    runCell evol (highMassCell me) st =
      .ok { st with sim := some (⟨[⟨1.50, none⟩,
          ⟨me, some ⟨16.64, 0.1397, 118.8 * dtor, 1.261, inc_pl, Omega_pl⟩⟩,
          ⟨me, some ⟨26.29, 0.1112, 24.3 * dtor, 2.032, inc_pl, Omega_pl⟩⟩,
          ⟨me, some ⟨43.12, 0.0561, 28.5 * dtor, 4.232, inc_pl, Omega_pl⟩⟩,
          ⟨me * 0.5, some ⟨70.50, 0.0113, 213.6 * dtor, 2.642, inc_pl, Omega_pl⟩⟩],
         0, 0.001, 1, false⟩ : SimState) } ∧
    (addCallsOf [highMassCell me]).map AddCall.m = [1.50, me, me, me, me * 0.5] ∧
    (addCallsOf [highMassCell me]).map AddCall.e =
      [none, some 0.1397, some 0.1112, some 0.0561, some 0.0113] ∧
    (∀ c : AddCall, (bodyOfCall c).m = c.m) ∧
    ∀ (c : AddCall) (s : SimState),
      runS evol { st with sim := some s } (.addBody c) =
        .ok ({ st with sim := some { s with particles := s.particles ++ [bodyOfCall c] } },
             false) :=
  ⟨rfl, rfl, rfl, fun _ => rfl, fun _ _ => rfl⟩

/-- C4.  The notebooks contain no `try/except` (and hence no retry or
recovery path), and an exception raised by an external-library call
propagates out of the cell and out of the whole run: in particular running
the reset cell against a filesystem that has no `start.bin` checkpoint makes
the cell — and any run continuing with further cells — end with the
missing-file error. -/
theorem claim_C4_no_error_handling (evol : Evol) (st : NBState)
    (h : lookupFile st.files "start.bin" = none) :
    ((notebookA ++ notebookB).all fun c => c.all fun stm => !isTryStmt stm) = true ∧
    runCell evol resetCell st = .error (.missingFile "start.bin") ∧
    ∀ rest : List Cell,
      runCells evol (resetCell :: rest) st = .error (.missingFile "start.bin") := by
  have hcell : runCell evol resetCell st = .error (.missingFile "start.bin") := by
    simp only [resetCell, runCell, runStmt, runS, Except.map]
    rw [show ({ st with sim := none } : NBState).files = st.files from rfl, h]
  refine ⟨rfl, hcell, fun rest => ?_⟩
  rw [runCells, hcell]

/-- C4, witness: with an empty filesystem the reset cell fails with the
missing-file error, and the error propagates through a continued run. -/
theorem claim_C4_witness :
    ((notebookA ++ notebookB).all fun c => c.all fun stm => !isTryStmt stm) = true ∧
    runCell (fun ps _ _ => ps) resetCell initNB = .error (.missingFile "start.bin") ∧
    ∀ rest : List Cell,
      runCells (fun ps _ _ => ps) (resetCell :: rest) initNB =
        .error (.missingFile "start.bin") :=
  claim_C4_no_error_handling (fun ps _ _ => ps) initNB rfl

/-- C5.  Over a complete in-order run of either notebook from a fresh state,
the file-operation log is exactly one write of `start.bin` followed by one
read of `start.bin`, and the final filesystem contains exactly the one entry
`start.bin`: no other file is ever created, modified or consulted, whatever
the external integrator does. -/
theorem claim_C5_single_checkpoint_file (evol : Evol) :
    (runCells evol notebookA initNB).map (fun st => (st.fsLog, st.files.map Prod.fst)) =
      .ok ([.write "start.bin", .read "start.bin"], ["start.bin"]) ∧
    (runCells evol notebookB initNB).map (fun st => (st.fsLog, st.files.map Prod.fst)) =
      .ok ([.write "start.bin", .read "start.bin"], ["start.bin"]) := by
  rw [runFullA evol, runFullB evol]
  exact ⟨rfl, rfl⟩

/-- C6.  No notebook cell defines a function; every loop body consists solely
of external-library calls and plotting operations; every numerically
significant statement (integration, orbit-element computation,
center-of-mass transform, serialization) occurring anywhere in the notebooks
is an external-library call; and the statements that are not library calls
(installs, imports, plain assignments, literal prints) have no effect at all
on the interpreter state. -/
theorem claim_C6_all_numerics_external (evol : Evol) (st : NBState) :
    ((notebookA ++ notebookB).all fun c => c.all fun stm => !isDefFunStmt stm) = true ∧
    ((loopBodiesOf (notebookA ++ notebookB)).all fun b =>
        b.all fun p => isExtCallS p || isPlotS p) = true ∧
    ((simpleStmtsOf (notebookA ++ notebookB)).filter isNumericOpS).all isExtCallS = true ∧
    runS evol st .pipInstall = .ok (st, false) ∧
    runS evol st .importLibs = .ok (st, false) ∧
    runS evol st .assignVar = .ok (st, false) ∧
    runS evol st .printText = .ok (st, false) ∧
    runS evol st .breakStmt = .ok (st, true) :=
  ⟨rfl, rfl, rfl, rfl, rfl, rfl, rfl, rfl⟩

/-- C7.  The animation loops range over fixed finite counts — 500 frames in
both loops of notebook A, 220 in both loops of notebook B — their bodies
contain no `break` (and, the bodies being flat statement lists, no other
exit construct), and from any state with a live simulation each loop cell
completes successfully having performed exactly its frame count of
integration steps. -/
theorem claim_C7_loops_run_to_completion (evol : Evol) (st : NBState) (s : SimState) :
    loopCountsOf notebookA = [500, 500] ∧
    loopCountsOf notebookB = [220, 220] ∧
    ((loopBodiesOf (notebookA ++ notebookB)).all fun b => b.all fun p => !isBreakS p) = true ∧
    (∃ st₁, runCell evol animCellA1 { st with sim := some s } = .ok st₁ ∧
       st₁.nInteg = st.nInteg + 500) ∧
    (∃ st₁, runCell evol animCellA2 { st with sim := some s } = .ok st₁ ∧
       st₁.nInteg = st.nInteg + 500) ∧
    (∃ st₁, runCell evol animCellB1 { st with sim := some s } = .ok st₁ ∧
       st₁.nInteg = st.nInteg + 220) ∧
    (∃ st₁, runCell evol animCellB2 { st with sim := some s } = .ok st₁ ∧
       st₁.nInteg = st.nInteg + 220) :=
  ⟨rfl, rfl, rfl,
   ⟨_, runCell_animA1 evol st.framestep st.files st.fsLog st.tables st.nInteg s, rfl⟩,
   ⟨_, runCell_animA2 evol st.framestep st.files st.fsLog st.tables st.nInteg s, rfl⟩,
   ⟨_, runCell_animB1 evol st.framestep st.files st.fsLog st.tables st.nInteg s, rfl⟩,
   ⟨_, runCell_animB2 evol st.framestep st.files st.fsLog st.tables st.nInteg s, rfl⟩⟩

/-- C8.  The only `sim.units` / `sim.G` assignments in either notebook are the
two in the setup cell (cell index 2); the simulations alive after the setup
cell and after the reset cell carry `G = 39.476926408897626` with units
assigned, but the fresh simulation built by the final high-mass cell — for any
mass value, and hence at the end of either complete run — carries the library
default `G = 1` with no units assigned, and the two values differ. -/
theorem claim_C8_final_sim_default_G (evol : Evol) (me : ℝ) (st : NBState) :
    (notebookA.map fun c => c.countP isUnitsOrG) =
      [0, 0, 2, 0, 0, 0, 0, 0, 0, 0, 0, 0, 0, 0, 0, 0, 0] ∧
    (notebookB.map fun c => c.countP isUnitsOrG) =
      [0, 0, 2, 0, 0, 0, 0, 0, 0, 0, 0, 0, 0, 0, 0, 0] ∧
    (runCells evol (notebookA.take 3) initNB).map
        (fun nb => nb.sim.map fun s => (s.G, s.unitsSet)) =
      .ok (some (39.476926408897626, true)) ∧
    (runCells evol (notebookA.take 10) initNB).map
        (fun nb => nb.sim.map fun s => (s.G, s.unitsSet)) =
      .ok (some (39.476926408897626, true)) ∧
    (runCells evol notebookA initNB).map
        (fun nb => nb.sim.map fun s => (s.G, s.unitsSet)) = .ok (some (1, false)) ∧
    (runCells evol (notebookB.take 10) initNB).map
        (fun nb => nb.sim.map fun s => (s.G, s.unitsSet)) =
      .ok (some (39.476926408897626, true)) ∧
    (runCells evol notebookB initNB).map
        (fun nb => nb.sim.map fun s => (s.G, s.unitsSet)) = .ok (some (1, false)) ∧
    (runCell evol (highMassCell me) st).map
        (fun nb => nb.sim.map fun s => (s.G, s.unitsSet)) = .ok (some (1, false)) ∧
    (39.476926408897626 : ℝ) ≠ 1 := by
  refine ⟨rfl, rfl, rfl, ?_, ?_, ?_, ?_, rfl, by norm_num⟩
  · rw [runPrefA10 evol]; rfl
  · rw [runFullA evol]; rfl
  · rw [runPrefB10 evol]; rfl
  · rw [runFullB evol]; rfl

/-- C9.  In each of the six simulation configurations the notebooks build
(after the first add cell, after the reset cell, and after the high-mass cell,
in both notebooks), the central star — mass 1.50, no orbital elements — is the
first particle, the planets that follow have semi-major axes 16.64, 26.29,
43.12, 70.50 in order (inside out, strictly increasing), and every planet
carries the same inclination `inc_pl` and the same node longitude `Omega_pl`,
so the planetary orbits are co-planar. -/
theorem claim_C9_config_star_first_coplanar (evol : Evol) :
    (runCells evol (notebookA.take 4) initNB).map configView =
      .ok (some [(1.50, none), (0.005, some (16.64, inc_pl, Omega_pl)),
                 (0.005, some (26.29, inc_pl, Omega_pl))]) ∧
    (runCells evol (notebookA.take 10) initNB).map configView =
      .ok (some [(1.50, none), (0.005, some (16.64, inc_pl, Omega_pl)),
                 (0.005, some (26.29, inc_pl, Omega_pl)),
                 (0.005, some (43.12, inc_pl, Omega_pl)),
                 (0.003, some (70.50, inc_pl, Omega_pl))]) ∧
    (runCells evol (notebookA.take 15) initNB).map configView =
      .ok (some [(1.50, none), (0.0073, some (16.64, inc_pl, Omega_pl)),
                 (0.0073, some (26.29, inc_pl, Omega_pl)),
                 (0.0073, some (43.12, inc_pl, Omega_pl)),
                 (0.0073 * 0.5, some (70.50, inc_pl, Omega_pl))]) ∧
    (runCells evol (notebookB.take 4) initNB).map configView =
      .ok (some [(1.50, none), (0.005, some (16.64, inc_pl, Omega_pl)),
                 (0.005, some (26.29, inc_pl, Omega_pl))]) ∧
    (runCells evol (notebookB.take 10) initNB).map configView =
      .ok (some [(1.50, none), (0.005, some (16.64, inc_pl, Omega_pl)),
                 (0.005, some (26.29, inc_pl, Omega_pl)),
                 (0.005, some (43.12, inc_pl, Omega_pl)),
                 (0.003, some (70.50, inc_pl, Omega_pl))]) ∧
    (runCells evol (notebookB.take 14) initNB).map configView =
      .ok (some [(1.50, none), (0.005, some (16.64, inc_pl, Omega_pl)),
                 (0.005, some (26.29, inc_pl, Omega_pl)),
                 (0.005, some (43.12, inc_pl, Omega_pl)),
                 (0.005 * 0.5, some (70.50, inc_pl, Omega_pl))]) ∧
    ((16.64 : ℝ) < 26.29 ∧ (26.29 : ℝ) < 43.12 ∧ (43.12 : ℝ) < 70.50) := by
  refine ⟨?_, ?_, ?_, ?_, ?_, ?_, by norm_num⟩
  · rw [runPref4 evol]; rfl
  · rw [runPrefA10 evol]; rfl
  · rw [runPrefA15 evol]; rfl
  · rw [runPrefB4 evol]; rfl
  · rw [runPrefB10 evol]; rfl
  · rw [runPrefB14 evol]; rfl

/-- C10.  Angle bookkeeping round-trips: dividing by the single conversion
constant `dtor = pi/180` inverts multiplying by it for every real angle; the
element table printed right after the first add cell — for freshly added,
unintegrated bodies — reproduces the degree-valued inputs exactly; the first
four cells of the two notebooks coincide; and every angular argument the
notebooks pass to `sim.add` is a degree literal multiplied by `dtor`. -/
theorem claim_C10_angle_roundtrip (evol : Evol) :
    (∀ x : ℝ, x * dtor / dtor = x) ∧
    (runCells evol (notebookA.take 4) initNB).map NBState.tables =
      .ok [[[16.64, 0.1397, 118.8, 27.8, 60.1],
            [26.29, 0.1112, 24.3, 27.8, 60.1]]] ∧
    notebookA.take 4 = notebookB.take 4 ∧
    anglesOf notebookA =
      [118.8 * dtor, 27.8 * dtor, 60.1 * dtor, 24.3 * dtor, 27.8 * dtor, 60.1 * dtor,
       28.5 * dtor, 27.8 * dtor, 60.1 * dtor, 213.6 * dtor, 27.8 * dtor, 60.1 * dtor,
       118.8 * dtor, 27.8 * dtor, 60.1 * dtor, 24.3 * dtor, 27.8 * dtor, 60.1 * dtor,
       28.5 * dtor, 27.8 * dtor, 60.1 * dtor, 213.6 * dtor, 27.8 * dtor, 60.1 * dtor] ∧
    inc_pl = 27.8 * dtor ∧ Omega_pl = 60.1 * dtor := by
  have hdtor : dtor ≠ 0 := div_ne_zero Real.pi_ne_zero (by norm_num)
  have hcancel : ∀ x : ℝ, x * dtor / dtor = x := fun x => mul_div_cancel_right₀ x hdtor
  refine ⟨hcancel, ?_, rfl, rfl, rfl, rfl⟩
  rw [runPref4 evol]
  rw [show ((Except.ok nbAfter4 : Except RunErr NBState).map NBState.tables) =
      .ok [[[16.64, 0.1397, 118.8 * dtor / dtor, 27.8 * dtor / dtor, 60.1 * dtor / dtor],
            [26.29, 0.1112, 24.3 * dtor / dtor, 27.8 * dtor / dtor, 60.1 * dtor / dtor]]]
      from rfl]
  simp only [hcancel]

end
